import Mathlib

/-
Verification of the retry executor (`src/utils/retry.py`) and the pagination
calculator (`src/database/pagination.py`) of the supabase-core-python module.

The Python functions are shallowly embedded:

* A Python exception is modelled by `PyError`, carrying the optional `code`
  attribute that `with_retry` probes with `hasattr`/`getattr`, plus a message.
* The zero-argument `operation` callable passed to `with_retry` is stateful in
  Python (each call can behave differently); it is modelled as a function from
  the invocation index (0-based) to the outcome of that invocation.
* `with_retry` is modelled by `with_retry`, which returns, besides the final
  outcome, the observable trace of the run: how many times the operation was
  invoked and the list of `time.sleep` durations in milliseconds.
* The Supabase query-builder collaborator of `paginate` (the object whose
  `.range(a, b).execute()` is called) is modelled as a function from the two
  range bounds to the response; the response models presence or absence of the
  `data` and `count` attributes with `Option`.  `paginate` returns the list of
  range calls made together with the outcome; Python floor division `//` is
  `Int.fdiv`, and `//` with a zero divisor is the `zeroDivisionError` outcome.
-/

namespace SupabaseCore

/-- A raised Python exception: `code` is `some c` when the error object has a
`code` attribute with value `c`, `none` when `hasattr(error, "code")` is
false; `msg` is the error message (used only to distinguish errors). -/
structure PyError where
  code : Option String
  msg : String
deriving DecidableEq, Repr

/-- `RetryConfig` from `src/utils/retry.py` with its dataclass defaults. -/
structure RetryConfig where
  max_retries : Int := 3
  delay_ms : Int := 1000
  exponential_backoff : Bool := true
  should_retry : Option (PyError → Bool) := none

/-- Final outcome of a `with_retry` run: a returned value, a re-raised
operation error, or the generic `Exception("Operation failed after retries")`
raised when `last_error` is still `None` after the loop. -/
inductive RetryOutcome (α : Type) where
  | ok : α → RetryOutcome α
  | raised : PyError → RetryOutcome α
  | fallbackRaise : String → RetryOutcome α
deriving DecidableEq, Repr

/-- Observable trace of a `with_retry` run: number of invocations of the
operation, the sleep durations in milliseconds in order, and the outcome. -/
structure RetryTrace (α : Type) where
  invocations : Nat
  sleeps_ms : List Int
  outcome : RetryOutcome α
deriving DecidableEq, Repr

/-- `config.should_retry and not config.should_retry(error)` (retry.py line 66):
true when a predicate is supplied and rejects the error. -/
def predicateRejects (cfg : RetryConfig) (e : PyError) : Bool :=
  match cfg.should_retry with
  | some p => !(p e)
  | none => false

/-- Lines 70-72 of retry.py: the error has a `code` attribute equal to
`"23505"` (unique constraint) or `"23503"` (foreign key). -/
def nonRetryableCode (e : PyError) : Bool :=
  match e.code with
  | some c => c == "23505" || c == "23503"
  | none => false

/-- Sleep duration in milliseconds computed at lines 78-81 of retry.py for a
failure at attempt index `attempt`. -/
def backoffDelay (cfg : RetryConfig) (attempt : Nat) : Int :=
  if cfg.exponential_backoff then cfg.delay_ms * 2 ^ attempt else cfg.delay_ms

/-- The `for attempt in range(config.max_retries + 1)` loop of retry.py.
`attempt` is the current loop index, `remaining` the number of loop
iterations left, `last_error` the `last_error` variable. -/
def retryGo {α : Type} (operation : Nat → Except PyError α) (cfg : RetryConfig)
    (attempt : Nat) (remaining : Nat) (last_error : Option PyError) : RetryTrace α :=
  match remaining with
  | 0 =>
    { invocations := 0, sleeps_ms := [],
      outcome :=
        match last_error with
        | some e => .raised e
        | none => .fallbackRaise "Operation failed after retries" }
  | r + 1 =>
    match operation attempt with
    | .ok v => { invocations := 1, sleeps_ms := [], outcome := .ok v }
    | .error e =>
      if predicateRejects cfg e then
        { invocations := 1, sleeps_ms := [], outcome := .raised e }
      else if nonRetryableCode e then
        { invocations := 1, sleeps_ms := [], outcome := .raised e }
      else if r = 0 then
        { invocations := 1, sleeps_ms := [], outcome := .raised e }
      else
        let rest := retryGo operation cfg (attempt + 1) r (some e)
        { invocations := rest.invocations + 1,
          sleeps_ms := backoffDelay cfg attempt :: rest.sleeps_ms,
          outcome := rest.outcome }

/-- `with_retry(operation, config)` from retry.py.  `range(max_retries + 1)`
has `(max_retries + 1).toNat` elements (empty when `max_retries < 0`). -/
def with_retry {α : Type} (operation : Nat → Except PyError α)
    (cfg : RetryConfig) : RetryTrace α :=
  retryGo operation cfg 0 (cfg.max_retries + 1).toNat none

/-- `PaginationParams` from pagination.py: 1-indexed page and items/page. -/
structure PaginationParams where
  page : Int
  limit : Int
deriving DecidableEq, Repr

/-- `PaginatedResponse` from pagination.py. -/
structure PaginatedResponse (α : Type) where
  data : List α
  total : Int
  page : Int
  limit : Int
  total_pages : Int
  has_next : Bool
  has_prev : Bool
deriving DecidableEq, Repr

/-- Response of `query.range(a, b).execute()`: `data`/`count` are `none`
when the response object lacks that attribute, matching the `hasattr`
probes at lines 68-69 of pagination.py. -/
structure QueryResponse (α : Type) where
  data : Option (List α)
  count : Option Int
deriving DecidableEq, Repr

/-- Outcome of `paginate`: a `PaginatedResponse`, or the `ZeroDivisionError`
Python raises from `(total + limit - 1) // limit` when `limit == 0`. -/
inductive PaginateOutcome (α : Type) where
  | ok : PaginatedResponse α → PaginateOutcome α
  | zeroDivisionError : PaginateOutcome α
deriving DecidableEq, Repr

/-- Observable trace of a `paginate` run: the `(start, end)` arguments of each
`range(...).execute()` call on the collaborator, and the outcome. -/
structure PaginateTrace (α : Type) where
  calls : List (Int × Int)
  outcome : PaginateOutcome α
deriving DecidableEq, Repr

/-- `paginate(query, params)` from pagination.py.  The collaborator is the
function `query` from the two range bounds to the executed response. -/
def paginate {α : Type} (query : Int → Int → QueryResponse α)
    (params : PaginationParams) : PaginateTrace α :=
  let page := params.page
  let limit := params.limit
  let offset := (page - 1) * limit
  let response := query offset (offset + limit - 1)
  let data := match response.data with | some d => d | none => []
  let total := match response.count with | some c => c | none => (data.length : Int)
  if limit = 0 then
    { calls := [(offset, offset + limit - 1)], outcome := .zeroDivisionError }
  else
    let total_pages := Int.fdiv (total + limit - 1) limit
    { calls := [(offset, offset + limit - 1)],
      outcome := .ok
        { data := data, total := total, page := page, limit := limit,
          total_pages := total_pages,
          has_next := decide (page < total_pages),
          has_prev := decide (page > 1) } }

/-- An operation that raises `Exception("boom")` (no `code` attribute) on
every invocation; used as a concrete instance. -/
def opFailBoom : Nat → Except PyError Nat :=
  fun _ => .error { code := none, msg := "boom" }

/-- Concrete configuration with no `should_retry` predicate. -/
def cfgNoPred : RetryConfig :=
  { max_retries := 2, delay_ms := 5, exponential_backoff := true, should_retry := none }

/-- An operation that fails on invocations 0 and 1 and returns 42 afterwards. -/
def opFailTwice : Nat → Except PyError Nat :=
  fun i => if i < 2 then .error { code := none, msg := "transient" } else .ok 42

/-- The spec scenario configuration: `max_retries=2, delay_ms=100`,
exponential backoff, no predicate. -/
def cfgBackoff : RetryConfig :=
  { max_retries := 2, delay_ms := 100, exponential_backoff := true, should_retry := none }

/-- An operation that fails on invocation 0 and returns 7 afterwards. -/
def opFailOnce : Nat → Except PyError Nat :=
  fun i => if i < 1 then .error { code := none, msg := "transient" } else .ok 7

/-- Configuration with constant backoff and room for three retries. -/
def cfgConstant : RetryConfig :=
  { max_retries := 3, delay_ms := 50, exponential_backoff := false, should_retry := none }

/-- An operation that always raises an error carrying the unique-constraint
code `"23505"`. -/
def opUniqueViolation : Nat → Except PyError Nat :=
  fun _ => .error { code := some "23505", msg := "duplicate key" }

/-- Configuration whose `should_retry` predicate accepts every error. -/
def cfgRetryAll : RetryConfig :=
  { max_retries := 3, delay_ms := 10, exponential_backoff := true,
    should_retry := some (fun _ => true) }

/-- Configuration whose `should_retry` predicate rejects every error. -/
def cfgRejectAll : RetryConfig :=
  { max_retries := 3, delay_ms := 10, exponential_backoff := true,
    should_retry := some (fun _ => false) }

/-- Configuration with a negative `max_retries`. -/
def cfgNegative : RetryConfig :=
  { max_retries := -1, delay_ms := 10, exponential_backoff := true, should_retry := none }

/-- A collaborator returning an empty page and a zero count for any range. -/
def queryEmpty : Int → Int → QueryResponse Nat :=
  fun _ _ => { data := some [], count := some 0 }

/-- A collaborator whose response object has neither a `data` nor a `count`
attribute. -/
def queryBare : Int → Int → QueryResponse Nat :=
  fun _ _ => { data := none, count := none }

/-- A collaborator over a 25-row table `0..24` with an exact count, serving
the requested inclusive range clipped to the table. -/
def queryTable25 : Int → Int → QueryResponse Nat :=
  fun a b =>
    { data := some ((List.range 25).filter
        (fun r => decide (a ≤ (r : Int)) && decide ((r : Int) ≤ b))),
      count := some 25 }

/-- A collaborator returning three rows but no `count` attribute. -/
def queryNoCount : Int → Int → QueryResponse Nat :=
  fun _ _ => { data := some [10, 11, 12], count := none }

/-- Shifting the index range of a mapped `List.range`. -/
theorem range_map_shift (f : Nat → Int) (a k : Nat) :
    (List.range (k + 1)).map (fun j => f (a + j)) =
      f a :: (List.range k).map (fun j => f (a + 1 + j)) := by
  rw [List.range_succ_eq_map, List.map_cons, List.map_map]
  refine congrArg₂ _ rfl ?_
  apply List.map_congr_left
  intro j _
  simp only [Function.comp]
  congr 1
  omega

/-- Run of the retry loop when every invocation fails with a retryable error:
`k + 1` iterations starting at attempt `a` make `k + 1` invocations, sleep
after each failure but the last, and end raising the last error. -/
theorem retryGo_always_fails {α : Type} (operation : Nat → Except PyError α)
    (cfg : RetryConfig) (errs : Nat → PyError)
    (hop : ∀ i, operation i = .error (errs i))
    (hpred : ∀ i, predicateRejects cfg (errs i) = false)
    (hcode : ∀ i, nonRetryableCode (errs i) = false) :
    ∀ (k a : Nat) (le : Option PyError),
      retryGo operation cfg a (k + 1) le =
        { invocations := k + 1,
          sleeps_ms := (List.range k).map (fun j => backoffDelay cfg (a + j)),
          outcome := .raised (errs (a + k)) } := by
  intro k
  induction k with
  | zero =>
    intro a le
    simp [retryGo, hop a, hpred a, hcode a]
  | succ k ih =>
    intro a le
    have hk0 : k + 1 ≠ 0 := Nat.succ_ne_zero k
    conv_lhs => rw [retryGo]
    simp only [hop a, hpred a, hcode a, Bool.false_eq_true, if_false, hk0, ite_false]
    rw [ih (a + 1) (some (errs a))]
    congr 1
    · simpa using (range_map_shift (backoffDelay cfg) a k).symm
    · show RetryOutcome.raised (errs (a + 1 + k)) = RetryOutcome.raised (errs (a + (k + 1)))
      rw [show a + 1 + k = a + (k + 1) by omega]

/-- Run of the retry loop when the first `k` invocations fail with retryable
errors and invocation `k` succeeds, with at least `k + 1` iterations left. -/
theorem retryGo_eventual_success {α : Type} (operation : Nat → Except PyError α)
    (cfg : RetryConfig) (errs : Nat → PyError) (v : α) :
    ∀ (k a r : Nat) (le : Option PyError), k < r →
      (∀ i, i < k → operation (a + i) = .error (errs (a + i))) →
      (∀ i, i < k → predicateRejects cfg (errs (a + i)) = false) →
      (∀ i, i < k → nonRetryableCode (errs (a + i)) = false) →
      operation (a + k) = .ok v →
      retryGo operation cfg a r le =
        { invocations := k + 1,
          sleeps_ms := (List.range k).map (fun j => backoffDelay cfg (a + j)),
          outcome := .ok v } := by
  intro k
  induction k with
  | zero =>
    intro a r le hr hfail hpred hcode hsucc
    obtain ⟨r1, rfl⟩ : ∃ r1, r = r1 + 1 := ⟨r - 1, by omega⟩
    have h0 : operation a = .ok v := by simpa using hsucc
    simp [retryGo, h0]
  | succ k ih =>
    intro a r le hr hfail hpred hcode hsucc
    obtain ⟨r1, rfl⟩ : ∃ r1, r = r1 + 1 := ⟨r - 1, by omega⟩
    have h0 : operation a = .error (errs a) := by
      simpa using hfail 0 (Nat.succ_pos k)
    have hp0 : predicateRejects cfg (errs a) = false := by
      simpa using hpred 0 (Nat.succ_pos k)
    have hc0 : nonRetryableCode (errs a) = false := by
      simpa using hcode 0 (Nat.succ_pos k)
    have hr1 : r1 ≠ 0 := by omega
    simp only [retryGo, h0, hp0, hc0, Bool.false_eq_true, if_false, hr1, ite_false]
    rw [ih (a + 1) r1 (some (errs a)) (by omega)
      (fun i hi => by
        have h := hfail (i + 1) (by omega)
        rw [show a + 1 + i = a + (i + 1) by omega]
        exact h)
      (fun i hi => by
        have h := hpred (i + 1) (by omega)
        rw [show a + 1 + i = a + (i + 1) by omega]
        exact h)
      (fun i hi => by
        have h := hcode (i + 1) (by omega)
        rw [show a + 1 + i = a + (i + 1) by omega]
        exact h)
      (by
        rw [show a + 1 + k = a + (k + 1) by omega]
        exact hsucc)]
    congr 1
    simpa using (range_map_shift (backoffDelay cfg) a k).symm

/-- C1: for `max_retries = n ≥ 0`, an operation raising on every call, no
`should_retry` predicate and no non-retryable code on the errors, `with_retry`
invokes the operation exactly `n + 1` times and raises the last error. -/
theorem with_retry_always_fails {α : Type} (operation : Nat → Except PyError α)
    (cfg : RetryConfig) (errs : Nat → PyError)
    (hn : 0 ≤ cfg.max_retries)
    (hpred : cfg.should_retry = none)
    (hop : ∀ i, operation i = .error (errs i))
    (hcode : ∀ i, nonRetryableCode (errs i) = false) :
    (with_retry operation cfg).invocations = cfg.max_retries.toNat + 1 ∧
      (with_retry operation cfg).outcome = .raised (errs cfg.max_retries.toNat) := by
  have hpr : ∀ i, predicateRejects cfg (errs i) = false := fun i => by
    simp [predicateRejects, hpred]
  have ht : (cfg.max_retries + 1).toNat = cfg.max_retries.toNat + 1 := by omega
  rw [with_retry, ht, retryGo_always_fails operation cfg errs hop hpr hcode]
  simp

/-- Witness for C1 at `max_retries = 2` with an always-failing operation:
3 invocations and the last error raised. -/
theorem with_retry_always_fails_witness :
    (with_retry opFailBoom cfgNoPred).invocations = 3 ∧
      (with_retry opFailBoom cfgNoPred).outcome =
        .raised { code := none, msg := "boom" } := by
  have h := with_retry_always_fails opFailBoom cfgNoPred
    (fun _ => { code := none, msg := "boom" }) (by decide) rfl (fun _ => rfl) (fun _ => rfl)
  exact ⟨h.1.trans (by decide), h.2⟩

/-- C5: when attempt `i` fails retryably with more attempts remaining,
`with_retry` sleeps `delay_ms * 2 ^ i` ms before the next attempt under
exponential backoff and a constant `delay_ms` otherwise: a run whose first
`k` attempts fail retryably and whose attempt `k` succeeds sleeps exactly
those delays for attempts `0..k-1`, invoking the operation `k + 1` times. -/
theorem with_retry_backoff_delays {α : Type} (operation : Nat → Except PyError α)
    (cfg : RetryConfig) (errs : Nat → PyError) (k : Nat) (v : α)
    (hk : (k : Int) ≤ cfg.max_retries)
    (hfail : ∀ i, i < k → operation i = .error (errs i))
    (hpred : ∀ i, i < k → predicateRejects cfg (errs i) = false)
    (hcode : ∀ i, i < k → nonRetryableCode (errs i) = false)
    (hsucc : operation k = .ok v) :
    (with_retry operation cfg).sleeps_ms =
        (List.range k).map
          (fun i => if cfg.exponential_backoff then cfg.delay_ms * 2 ^ i
            else cfg.delay_ms) ∧
      (with_retry operation cfg).invocations = k + 1 := by
  have hkr : k < (cfg.max_retries + 1).toNat := by omega
  rw [with_retry, retryGo_eventual_success operation cfg errs v k 0
      ((cfg.max_retries + 1).toNat) none hkr
      (fun i hi => by simpa using hfail i hi)
      (fun i hi => by simpa using hpred i hi)
      (fun i hi => by simpa using hcode i hi)
      (by simpa using hsucc)]
  constructor
  · simp [backoffDelay]
  · rfl

/-- Witness for C5: the spec scenario (`max_retries=2, delay_ms=100`,
exponential backoff, two failures then success) sleeps 100 ms then 200 ms
and invokes the operation 3 times. -/
theorem with_retry_backoff_delays_witness :
    (with_retry opFailTwice cfgBackoff).sleeps_ms = [100, 200] ∧
      (with_retry opFailTwice cfgBackoff).invocations = 3 := by
  have h := with_retry_backoff_delays opFailTwice cfgBackoff
      (fun _ => { code := none, msg := "transient" }) 2 42
      (by decide)
      (fun i hi => by simp [opFailTwice, hi])
      (fun i _ => rfl)
      (fun i _ => rfl)
      rfl
  exact ⟨h.1.trans (by decide), h.2⟩

/-- C8: an operation that fails `k < max_retries` times with retryable errors
and then succeeds makes `with_retry` return the success value after exactly
`k + 1` invocations. -/
theorem with_retry_eventual_success {α : Type} (operation : Nat → Except PyError α)
    (cfg : RetryConfig) (errs : Nat → PyError) (k : Nat) (v : α)
    (hk : (k : Int) < cfg.max_retries)
    (hfail : ∀ i, i < k → operation i = .error (errs i))
    (hpred : ∀ i, i < k → predicateRejects cfg (errs i) = false)
    (hcode : ∀ i, i < k → nonRetryableCode (errs i) = false)
    (hsucc : operation k = .ok v) :
    (with_retry operation cfg).outcome = .ok v ∧
      (with_retry operation cfg).invocations = k + 1 := by
  have hkr : k < (cfg.max_retries + 1).toNat := by omega
  rw [with_retry, retryGo_eventual_success operation cfg errs v k 0
      ((cfg.max_retries + 1).toNat) none hkr
      (fun i hi => by simpa using hfail i hi)
      (fun i hi => by simpa using hpred i hi)
      (fun i hi => by simpa using hcode i hi)
      (by simpa using hsucc)]
  exact ⟨rfl, rfl⟩

/-- Witness for C8: one failure then success under `max_retries = 3` returns
the success value with 2 invocations. -/
theorem with_retry_eventual_success_witness :
    (with_retry opFailOnce cfgConstant).outcome = .ok 7 ∧
      (with_retry opFailOnce cfgConstant).invocations = 2 := by
  have h := with_retry_eventual_success opFailOnce cfgConstant
      (fun _ => { code := none, msg := "transient" }) 1 7
      (by decide)
      (fun i hi => by simp [opFailOnce, hi])
      (fun i _ => rfl)
      (fun i _ => rfl)
      rfl
  exact ⟨h.1, h.2⟩

/-- C6: an error whose `code` attribute is the unique-constraint code
`"23505"` or the foreign-key code `"23503"` is re-raised immediately,
whatever the `should_retry` predicate: one invocation, no sleep. -/
theorem with_retry_nonretryable_code {α : Type} (operation : Nat → Except PyError α)
    (cfg : RetryConfig) (e : PyError)
    (h0 : 0 ≤ cfg.max_retries)
    (hop : operation 0 = .error e)
    (hcode : e.code = some "23505" ∨ e.code = some "23503") :
    with_retry operation cfg =
      { invocations := 1, sleeps_ms := [], outcome := .raised e } := by
  obtain ⟨m, hm⟩ : ∃ m, (cfg.max_retries + 1).toNat = m + 1 :=
    ⟨cfg.max_retries.toNat, by omega⟩
  have hnc : nonRetryableCode e = true := by
    rcases hcode with h | h <;> simp [nonRetryableCode, h]
  rw [with_retry, hm]
  cases hp : predicateRejects cfg e with
  | false => simp [retryGo, hop, hp, hnc]
  | true => simp [retryGo, hop, hp]

/-- Witness for C6: a unique-constraint error under a retry-everything
predicate still causes exactly one invocation and an immediate re-raise. -/
theorem with_retry_nonretryable_code_witness :
    with_retry opUniqueViolation cfgRetryAll =
      { invocations := 1, sleeps_ms := [],
        outcome := .raised { code := some "23505", msg := "duplicate key" } } :=
  with_retry_nonretryable_code opUniqueViolation cfgRetryAll
    { code := some "23505", msg := "duplicate key" } (by decide) rfl (Or.inl rfl)

/-- C7: a supplied `should_retry` predicate returning false on the first
error makes `with_retry` re-raise it immediately: one invocation, no sleep. -/
theorem with_retry_predicate_rejects {α : Type} (operation : Nat → Except PyError α)
    (cfg : RetryConfig) (p : PyError → Bool) (e : PyError)
    (h0 : 0 ≤ cfg.max_retries)
    (hp : cfg.should_retry = some p)
    (hpe : p e = false)
    (hop : operation 0 = .error e) :
    with_retry operation cfg =
      { invocations := 1, sleeps_ms := [], outcome := .raised e } := by
  obtain ⟨m, hm⟩ : ∃ m, (cfg.max_retries + 1).toNat = m + 1 :=
    ⟨cfg.max_retries.toNat, by omega⟩
  have hpr : predicateRejects cfg e = true := by
    simp [predicateRejects, hp, hpe]
  rw [with_retry, hm]
  simp [retryGo, hop, hpr]

/-- Witness for C7: a reject-everything predicate causes one invocation,
no sleep, and an immediate re-raise of the first error. -/
theorem with_retry_predicate_rejects_witness :
    with_retry opFailBoom cfgRejectAll =
      { invocations := 1, sleeps_ms := [],
        outcome := .raised { code := none, msg := "boom" } } :=
  with_retry_predicate_rejects opFailBoom cfgRejectAll (fun _ => false)
    { code := none, msg := "boom" } (by decide) rfl rfl rfl

/-- C10: with `max_retries < 0` the loop body never runs: the operation is
never invoked and the generic fallback
`Exception("Operation failed after retries")` is raised. -/
theorem with_retry_negative_max_retries {α : Type} (operation : Nat → Except PyError α)
    (cfg : RetryConfig) (h : cfg.max_retries < 0) :
    with_retry operation cfg =
      { invocations := 0, sleeps_ms := [],
        outcome := .fallbackRaise "Operation failed after retries" } := by
  have hm : (cfg.max_retries + 1).toNat = 0 := by omega
  rw [with_retry, hm]
  simp [retryGo]

/-- Witness for C10: `max_retries = -1` yields zero invocations and the
generic fallback error. -/
theorem with_retry_negative_max_retries_witness :
    with_retry opFailBoom cfgNegative =
      { invocations := 0, sleeps_ms := [],
        outcome := .fallbackRaise "Operation failed after retries" } :=
  with_retry_negative_max_retries opFailBoom cfgNegative (by decide)

/-- Python floor division `(t + l - 1) // l` equals the rational ceiling of
`t / l` when `t ≥ 0` and `l ≥ 1`. -/
theorem fdiv_pred_eq_ceil (t l : Int) (_ht : 0 ≤ t) (hl : 1 ≤ l) :
    Int.fdiv (t + l - 1) l = ⌈(t : ℚ) / (l : ℚ)⌉ := by
  have hl0 : (0 : Int) < l := by omega
  have hlq : (0 : ℚ) < (l : ℚ) := by exact_mod_cast hl0
  rw [Int.fdiv_eq_ediv _ (by omega : (0 : Int) ≤ l)]
  have hkey := Int.ediv_add_emod (t + l - 1) l
  have hr0 : 0 ≤ (t + l - 1) % l := Int.emod_nonneg _ (by omega)
  have hrl : (t + l - 1) % l < l := Int.emod_lt_of_pos _ hl0
  have h1 : t ≤ l * ((t + l - 1) / l) := by linarith
  have h2 : l * ((t + l - 1) / l) < t + l := by linarith
  symm
  rw [Int.ceil_eq_iff]
  constructor
  · rw [lt_div_iff₀ hlq]
    have h3 : ((t + l - 1) / l - 1) * l < t := by nlinarith
    exact_mod_cast h3
  · rw [div_le_iff₀ hlq]
    have h4 : t ≤ ((t + l - 1) / l) * l := by nlinarith
    exact_mod_cast h4

/-- C2: for `total ≥ 0` and `limit ≥ 1`, the response built by `paginate`
has `total_pages = ceil(total/limit)`, `has_next` iff `page < total_pages`,
`has_prev` iff `page > 1`; with `total = 0` it has `total_pages = 0` and,
at any page of the valid region around the spec scenario `page = 1`,
`has_next = has_prev = false`. -/
theorem paginate_metadata {α : Type} (query : Int → Int → QueryResponse α)
    (params : PaginationParams) (rows : List α) (total : Int)
    (ht : 0 ≤ total) (hl : 1 ≤ params.limit)
    (hq : query ((params.page - 1) * params.limit)
        ((params.page - 1) * params.limit + params.limit - 1) =
        { data := some rows, count := some total }) :
    ∃ resp : PaginatedResponse α,
      (paginate query params).outcome = .ok resp ∧
        resp.total_pages = ⌈(total : ℚ) / (params.limit : ℚ)⌉ ∧
        (resp.has_next = true ↔ params.page < resp.total_pages) ∧
        (resp.has_prev = true ↔ 1 < params.page) ∧
        (total = 0 →
          resp.total_pages = 0 ∧
            (1 ≤ params.page → resp.has_next = false) ∧
            (params.page ≤ 1 → resp.has_prev = false)) := by
  have hl0 : ¬(params.limit = 0) := by omega
  refine ⟨{ data := rows, total := total, page := params.page,
            limit := params.limit,
            total_pages := Int.fdiv (total + params.limit - 1) params.limit,
            has_next := decide
              (params.page < Int.fdiv (total + params.limit - 1) params.limit),
            has_prev := decide (params.page > 1) }, ?_, ?_, ?_, ?_, ?_⟩
  · simp [paginate, hq, hl0]
  · exact fdiv_pred_eq_ceil total params.limit ht hl
  · simp
  · simp
  · intro h0
    subst h0
    have htp : Int.fdiv (0 + params.limit - 1) params.limit = 0 := by
      rw [fdiv_pred_eq_ceil 0 params.limit le_rfl hl]
      simp
    refine ⟨htp, ?_, ?_⟩
    · intro hp
      rw [htp]
      simp only [decide_eq_false_iff_not]
      omega
    · intro hp
      simp only [gt_iff_lt, decide_eq_false_iff_not]
      omega

/-- Witness for C2 at the spec scenario `total = 0, limit = 10, page = 1`. -/
theorem paginate_metadata_witness :
    ∃ resp : PaginatedResponse Nat,
      (paginate queryEmpty { page := 1, limit := 10 }).outcome = .ok resp ∧
        resp.total_pages = ⌈((0 : Int) : ℚ) / (((10 : Int)) : ℚ)⌉ ∧
        (resp.has_next = true ↔ (1 : Int) < resp.total_pages) ∧
        (resp.has_prev = true ↔ (1 : Int) < (1 : Int)) ∧
        ((0 : Int) = 0 →
          resp.total_pages = 0 ∧
            ((1 : Int) ≤ (1 : Int) → resp.has_next = false) ∧
            ((1 : Int) ≤ (1 : Int) → resp.has_prev = false)) :=
  paginate_metadata queryEmpty { page := 1, limit := 10 } [] 0 le_rfl (by decide) rfl

/-- C9: `paginate` asks the collaborator exactly once, for the inclusive row
range `[(page-1)*limit, (page-1)*limit + limit - 1]`. -/
theorem paginate_single_range_call {α : Type} (query : Int → Int → QueryResponse α)
    (params : PaginationParams)
    (_hp : 1 ≤ params.page) (hl : 1 ≤ params.limit) :
    (paginate query params).calls =
      [((params.page - 1) * params.limit,
        (params.page - 1) * params.limit + params.limit - 1)] := by
  have hl0 : ¬(params.limit = 0) := by omega
  simp [paginate, hl0]

/-- Witness for C9: `page = 3, limit = 10` asks for rows `[20, 29]`. -/
theorem paginate_single_range_call_witness :
    (paginate queryTable25 { page := 3, limit := 10 }).calls = [(20, 29)] := by
  have h := paginate_single_range_call queryTable25 { page := 3, limit := 10 }
    (by decide) (by decide)
  exact h.trans (by decide)

/-- C3 fails on the code: with `limit = 0` the collaborator IS invoked
(`range(0, -1).execute()` runs before the division-by-zero), so `paginate`
does not reject the input before the collaborator call. -/
theorem paginate_limit_zero_calls_collaborator :
    (paginate queryEmpty { page := 1, limit := 0 }).calls ≠ [] := by decide

/-- C3 amended: `paginate` performs no validation of `limit`; for
`limit ≤ 0` the collaborator's `range(...).execute()` is still invoked
exactly once, and when `limit = 0` a `ZeroDivisionError` is raised only
afterwards, while computing `total_pages`. -/
theorem paginate_invalid_limit_behavior {α : Type} (query : Int → Int → QueryResponse α)
    (params : PaginationParams) (_hl : params.limit ≤ 0) :
    (paginate query params).calls.length = 1 ∧
      (params.limit = 0 → (paginate query params).outcome = .zeroDivisionError) := by
  constructor
  · by_cases h0 : params.limit = 0 <;> simp [paginate, h0]
  · intro h0
    simp [paginate, h0]

/-- Witness for C3's amended statement at `page = 1, limit = 0`. -/
theorem paginate_invalid_limit_behavior_witness :
    (paginate queryEmpty { page := 1, limit := 0 }).calls.length = 1 ∧
      ((0 : Int) = 0 →
        (paginate queryEmpty { page := 1, limit := 0 }).outcome = .zeroDivisionError) :=
  paginate_invalid_limit_behavior queryEmpty { page := 1, limit := 0 } (by decide)

/-- C4 fails on the code: a response lacking both the `data` and the `count`
attribute does not make `paginate` raise; it silently substitutes the empty
list and a zero count and completes. -/
theorem paginate_missing_fields_silent :
    (paginate queryBare { page := 1, limit := 10 }).outcome =
      .ok { data := [], total := 0, page := 1, limit := 10, total_pages := 0,
            has_next := false, has_prev := false } := by decide

/-- C4 amended: `paginate` substitutes fallbacks for missing response
attributes: a missing `data` becomes `[]` and a missing `count` becomes the
length of the (possibly substituted) data list; the call completes. -/
theorem paginate_substitutes_defaults {α : Type} (query : Int → Int → QueryResponse α)
    (params : PaginationParams)
    (hl : params.limit ≠ 0)
    (hq : (query ((params.page - 1) * params.limit)
        ((params.page - 1) * params.limit + params.limit - 1)).count = none) :
    ∃ resp : PaginatedResponse α,
      (paginate query params).outcome = .ok resp ∧
        resp.data = (match (query ((params.page - 1) * params.limit)
            ((params.page - 1) * params.limit + params.limit - 1)).data with
          | some d => d
          | none => []) ∧
        resp.total = (resp.data.length : Int) := by
  cases hd : (query ((params.page - 1) * params.limit)
      ((params.page - 1) * params.limit + params.limit - 1)).data with
  | none =>
    refine ⟨{ data := ([] : List α), total := ((([] : List α).length : Nat) : Int),
              page := params.page, limit := params.limit,
              total_pages := Int.fdiv (((([] : List α).length : Nat) : Int)
                + params.limit - 1) params.limit,
              has_next := decide (params.page < Int.fdiv
                (((([] : List α).length : Nat) : Int) + params.limit - 1) params.limit),
              has_prev := decide (params.page > 1) }, ?_, ?_, ?_⟩
    · simp [paginate, hq, hd, hl]
    · simp [hd]
    · rfl
  | some d =>
    refine ⟨{ data := d, total := (d.length : Int),
              page := params.page, limit := params.limit,
              total_pages := Int.fdiv ((d.length : Int) + params.limit - 1)
                params.limit,
              has_next := decide (params.page < Int.fdiv
                ((d.length : Int) + params.limit - 1) params.limit),
              has_prev := decide (params.page > 1) }, ?_, ?_, ?_⟩
    · simp [paginate, hq, hd, hl]
    · simp [hd]
    · rfl

/-- Witness for C4's amended statement: three rows, no `count` attribute. -/
theorem paginate_substitutes_defaults_witness :
    ∃ resp : PaginatedResponse Nat,
      (paginate queryNoCount { page := 2, limit := 3 }).outcome = .ok resp ∧
        resp.data = (match (queryNoCount (((2 : Int) - 1) * 3)
            (((2 : Int) - 1) * 3 + 3 - 1)).data with
          | some d => d
          | none => []) ∧
        resp.total = (resp.data.length : Int) :=
  paginate_substitutes_defaults queryNoCount { page := 2, limit := 3 } (by decide) rfl

end SupabaseCore
